import Mathlib

/-!
# Verification of the fintech-starter-app yield-automation core

Shallow embedding, in Lean 4, of the parts of the repository that the
frozen claims are about:

* `src/lib/yield-optimizer/strategy/evaluator.ts` — the rebalancing
  decision engine (`estimateCosts`, `riskAdjustedApy`, `evaluateRebalance`).
  The source file contains two revisions of the evaluator: the original
  gas-inclusive cost model (flat gas estimate converted to a fraction of
  the amount) and a later sponsored-gas cost model.  Both revisions share
  the same decision skeleton and differ only in the cost estimate and the
  name of the threshold constant, so the skeleton is embedded once,
  parameterised by the cost model (`evaluateRebalanceWith`), and the
  gas-inclusive revision is instantiated as `evaluateRebalance`.
* `src/lib/agent/rebalance-executor.ts` — `buildRebalanceCalls`,
  `buildScopedPermissions`, `executeRebalance`.
* `src/lib/zerodev/transfer-executor.ts` — `executeGaslessTransfer`.
* `src/lib/oracles/chainlink.ts` — `isSequencerUp`, `getUsdcPrice`,
  `isRebalanceSafe`.
* `src/lib/rate-limiter.ts` — `checkTransferRateLimit`,
  `recordTransferAttempt`, `resetUserRateLimit`, `getUserTransferHistory`.

Modelling conventions:

* JavaScript `number` values (APYs, fractions, USD amounts) are embedded
  as exact rationals `ℚ`; `bigint` values as `ℤ`; timestamps as `ℤ`
  (milliseconds for the rate limiter, seconds for the oracle code, as in
  the source).
* Interpolated human-readable strings whose numeric payload no claim
  depends on are abstracted into inductive reason tags carrying the
  non-numeric data; strings whose content a claim does depend on (the
  oracle error reasons) are kept as `String` values built with `++`.
* Effectful executor code is embedded as a pure function of an explicit
  environment describing the outcomes of the external calls, returning
  both the result and the ordered trace of external signing/submission
  primitives invoked, so that "performs no network call" is a statement
  about the returned trace.
* JavaScript `Map` state (the rate limiter store) is embedded as a total
  function `String → List TransferAttempt` with `[]` as the default
  value, and `Date.now()` as an explicit parameter.
-/

namespace FintechApp

/-! ## Data model (src/lib/yield-optimizer/types.ts) -/

/-- The protocol enum `"morpho" | "aave" | "moonwell"`. -/
inductive Protocol where
  | morpho
  | aave
  | moonwell
deriving DecidableEq, Repr

/-- `YieldOpportunity` from types.ts.  `tvl` and `liquidityDepth` are
bigints, `apy` and `riskScore` are JS numbers (embedded as `ℚ`); the
free-form `metadata` record is dropped (no claim mentions it). -/
structure YieldOpportunity where
  id : String
  protocol : Protocol
  name : String
  asset : String
  apy : ℚ
  tvl : ℤ
  address : String
  riskScore : ℚ
  liquidityDepth : ℤ
deriving DecidableEq, Repr

/-- `Position` from types.ts. -/
structure Position where
  protocol : Protocol
  vaultAddress : String
  shares : ℤ
  assets : ℤ
  apy : ℚ
  enteredAt : ℤ
deriving DecidableEq, Repr

/-! ## Decision engine (src/lib/yield-optimizer/strategy/evaluator.ts) -/

/-- The decision reasons produced by `evaluateRebalance`, one constructor
per template string in the source (numeric interpolations abstracted,
non-numeric payloads kept). -/
inductive EvalReason where
  | noOpportunities
  | noUsdcBalance
  | alreadyOptimal
  | depositRecommended (name : String)
  | netApyBelowThreshold
  | rebalanceRecommended (fromProtocol : Protocol) (name : String)
  | netGainBelowThreshold
deriving DecidableEq, Repr

/-- `CostEstimate` from evaluator.ts. -/
structure CostEstimate where
  gasCostUsd : ℚ
  slippagePct : ℚ
  totalCostPct : ℚ
deriving DecidableEq, Repr

/-- `RebalanceDecision` from types.ts (reason string abstracted to
`EvalReason`). -/
structure RebalanceDecision where
  shouldRebalance : Bool
  fromPos : Option Position
  toOpp : Option YieldOpportunity
  estimatedGasCost : ℤ
  estimatedSlippage : ℚ
  netGain : ℚ
  reason : EvalReason
deriving DecidableEq, Repr

/-- `MIN_REBALANCE_THRESHOLD = 0.005` (gas-inclusive revision). -/
def MIN_REBALANCE_THRESHOLD : ℚ := 5 / 1000

/-- `ESTIMATED_GAS_COST_USD = 0.5`. -/
def ESTIMATED_GAS_COST_USD : ℚ := 1 / 2

/-- `estimateCosts` of the gas-inclusive revision: gas as a fraction of the
amount, 0.1% slippage, plus an extra 0.1% exit leg when leaving a
position.  `amountUsd = Number(amount) / 1e6`. -/
def estimateCosts (amount : ℤ) (fromPos : Option Position) : CostEstimate :=
  let amountUsd : ℚ := (amount : ℚ) / 1000000
  let gasCostPct : ℚ := if 0 < amountUsd then ESTIMATED_GAS_COST_USD / amountUsd else 0
  let slippagePct : ℚ := 1 / 1000
  let withdrawCostPct : ℚ := if fromPos.isSome then 1 / 1000 else 0
  { gasCostUsd := ESTIMATED_GAS_COST_USD * (if fromPos.isSome then 2 else 1)
    slippagePct := slippagePct
    totalCostPct := gasCostPct + slippagePct + withdrawCostPct }

/-- `riskAdjustedApy`: `apy * (1 - riskScore)`. -/
def riskAdjustedApy (opportunity : YieldOpportunity) : ℚ :=
  opportunity.apy * (1 - opportunity.riskScore)

/-- The TS union `Position[] | Position | null` taken by
`evaluateRebalance`. -/
inductive PositionsInput where
  | arr (positions : List Position)
  | single (position : Position)
  | null
deriving DecidableEq, Repr

/-- The normalization at the top of `evaluateRebalance`: an array input
becomes its first element (or null when empty); a non-array input is used
as-is. -/
def normalizePositions : PositionsInput → Option Position
  | .arr (p :: _) => some p
  | .arr [] => none
  | .single p => some p
  | .null => none

/-- `[...opportunities].sort((a, b) => riskAdjustedApy(b) - riskAdjustedApy(a))[0]`:
JS `sort` is stable, so the head of the descending sort is the first
element attaining the maximal risk-adjusted APY.  Embedded as a left fold
that replaces the accumulator only on strict improvement. -/
def pickBetter (a o : YieldOpportunity) : YieldOpportunity :=
  if riskAdjustedApy a < riskAdjustedApy o then o else a

/-- First element of the list attaining the maximal risk-adjusted APY. -/
def bestOpportunity (h : YieldOpportunity) (t : List YieldOpportunity) :
    YieldOpportunity :=
  t.foldl pickBetter h

/-- A cost model, as the two revisions of `estimateCosts` differ:
`amount → fromPosition → CostEstimate`. -/
def CostModel : Type := ℤ → Option Position → CostEstimate

/-- The shared skeleton of both revisions of `evaluateRebalance`,
parameterised by the cost model and the minimum-improvement threshold.
Mirrors the source statement-for-statement: normalize the position input,
bail out on an empty opportunity list, pick the best risk-adjusted
opportunity, then either evaluate an entry (no position) or a switch
(position present, with the flat `0.85` discount standing in for the
current position's risk adjustment). -/
def evaluateRebalanceWith (costModel : CostModel) (threshold : ℚ)
    (currentPositions : PositionsInput)
    (opportunities : List YieldOpportunity)
    (usdcBalance : ℤ) : RebalanceDecision :=
  let currentPosition := normalizePositions currentPositions
  match opportunities with
  | [] =>
    { shouldRebalance := false
      fromPos := currentPosition
      toOpp := none
      estimatedGasCost := 0
      estimatedSlippage := 0
      netGain := 0
      reason := .noOpportunities }
  | h :: t =>
    let bestOpp := bestOpportunity h t
    match currentPosition with
    | none =>
      if usdcBalance = 0 then
        { shouldRebalance := false
          fromPos := none
          toOpp := some bestOpp
          estimatedGasCost := 0
          estimatedSlippage := 0
          netGain := 0
          reason := .noUsdcBalance }
      else
        let costs := costModel usdcBalance none
        let netApy := riskAdjustedApy bestOpp - costs.totalCostPct
        { shouldRebalance := threshold < netApy
          fromPos := none
          toOpp := some bestOpp
          estimatedGasCost := ⌊costs.gasCostUsd * 1000000⌋
          estimatedSlippage := costs.slippagePct
          netGain := netApy
          reason :=
            if threshold < netApy then .depositRecommended bestOpp.name
            else .netApyBelowThreshold }
    | some pos =>
      let currentAdjustedApy := pos.apy * (85 / 100)
      let bestAdjustedApy := riskAdjustedApy bestOpp
      if pos.protocol = bestOpp.protocol then
        { shouldRebalance := false
          fromPos := some pos
          toOpp := some bestOpp
          estimatedGasCost := 0
          estimatedSlippage := 0
          netGain := 0
          reason := .alreadyOptimal }
      else
        let costs := costModel pos.assets (some pos)
        let apyImprovement := bestAdjustedApy - currentAdjustedApy
        let netGain := apyImprovement - costs.totalCostPct
        { shouldRebalance := threshold < netGain
          fromPos := some pos
          toOpp := some bestOpp
          estimatedGasCost := ⌊costs.gasCostUsd * 1000000⌋
          estimatedSlippage := costs.slippagePct
          netGain := netGain
          reason :=
            if threshold < netGain then
              .rebalanceRecommended pos.protocol bestOpp.name
            else .netGainBelowThreshold }

/-- `evaluateRebalance`, gas-inclusive revision: the skeleton at
`estimateCosts` and `MIN_REBALANCE_THRESHOLD`. -/
def evaluateRebalance (currentPositions : PositionsInput)
    (opportunities : List YieldOpportunity) (usdcBalance : ℤ) :
    RebalanceDecision :=
  evaluateRebalanceWith estimateCosts MIN_REBALANCE_THRESHOLD
    currentPositions opportunities usdcBalance

/-! ## Rebalance executor (src/lib/agent/rebalance-executor.ts) -/

/-- `USDC_ADDRESS` (Base mainnet USDC) as used by both executors. -/
def USDC_ADDRESS : String := "0x833589fCD6eDb6E08f4c7C32D4f71b54bdA02913"

/-- `MAX_UINT256 = 0xffff…ffff`. -/
def MAX_UINT256 : ℤ := 2 ^ 256 - 1

/-- The `FUNCTION_SELECTORS` record. -/
structure FunctionSelectors where
  redeem : String
  deposit : String
  withdraw : String
  approve : String
  transfer : String
deriving DecidableEq, Repr

/-- `FUNCTION_SELECTORS` from rebalance-executor.ts. -/
def FUNCTION_SELECTORS : FunctionSelectors :=
  { redeem := "0xba087652"
    deposit := "0x6e553f65"
    withdraw := "0xb460af94"
    approve := "0x095ea7b3"
    transfer := "0xa9059cbb" }

/-- ABI-encoded call data (`encodeFunctionData`): one constructor per
function the executors encode, carrying the selector implicitly and the
arguments explicitly. -/
inductive CallData where
  | redeem (shares : ℤ) (receiver : String) (owner : String)
  | approve (spender : String) (amount : ℤ)
  | deposit (assets : ℤ) (receiver : String)
  | transfer (recipient : String) (amount : ℤ)
deriving DecidableEq, Repr

/-- The first four bytes of the encoded call data. -/
def CallData.selector : CallData → String
  | .redeem _ _ _ => FUNCTION_SELECTORS.redeem
  | .approve _ _ => FUNCTION_SELECTORS.approve
  | .deposit _ _ => FUNCTION_SELECTORS.deposit
  | .transfer _ _ => FUNCTION_SELECTORS.transfer

/-- `RebalanceParams`. -/
structure RebalanceParams where
  fromVault : String
  toVault : String
  shares : ℤ
  userAddress : String
deriving DecidableEq, Repr

/-- `RebalanceCall`: target, encoded data, native value. -/
structure RebalanceCall where
  toAddr : String
  data : CallData
  value : ℤ
deriving DecidableEq, Repr

/-- `buildRebalanceCalls`: redeem from the source vault, max-approve the
destination vault on USDC, deposit the max sentinel into the destination
vault. -/
def buildRebalanceCalls (params : RebalanceParams) : List RebalanceCall :=
  [ { toAddr := params.fromVault
      data := .redeem params.shares params.userAddress params.userAddress
      value := 0 }
  , { toAddr := USDC_ADDRESS
      data := .approve params.toVault MAX_UINT256
      value := 0 }
  , { toAddr := params.toVault
      data := .deposit MAX_UINT256 params.userAddress
      value := 0 } ]

/-- One entry of the `toCallPolicy` permission list: a (target contract,
function selector) pair.  The source's entries carry no argument
conditions, so a permission constrains only the target and selector. -/
structure Permission where
  target : String
  selector : String
deriving DecidableEq, Repr

/-- `buildScopedPermissions`: redeem/deposit/withdraw on each approved
vault (in vault order), then a single USDC approve entry. -/
def buildScopedPermissions (approvedVaults : List String) : List Permission :=
  approvedVaults.foldl
    (fun permissions vaultAddress =>
      permissions ++
        [ { target := vaultAddress, selector := FUNCTION_SELECTORS.redeem }
        , { target := vaultAddress, selector := FUNCTION_SELECTORS.deposit }
        , { target := vaultAddress, selector := FUNCTION_SELECTORS.withdraw } ])
    []
  ++ [{ target := USDC_ADDRESS, selector := FUNCTION_SELECTORS.approve }]

/-- A candidate on-chain call as the session-key policy sees it: target
contract, 4-byte selector, and the ABI argument words (for `approve`,
`args.head` is the spender). -/
structure CallRequest where
  target : String
  selector : String
  args : List String
deriving DecidableEq, Repr

/-- `toCallPolicy` semantics for permission entries without argument
conditions: a call is permitted iff some entry matches its target and
selector (the arguments are unconstrained). -/
def policyPermits (permissions : List Permission) (c : CallRequest) : Bool :=
  permissions.any fun p => p.target == c.target && p.selector == c.selector

/-- Modelled from the spec: the permission set the spec describes for the
agent/rebalance session — redeem/deposit/withdraw on each approved vault,
and approve on the stable-asset contract restricted to spender = an
approved vault.  Used only to compare the spec's wording against
`buildScopedPermissions`. -/
def specScopedPermits (approvedVaults : List String) (c : CallRequest) : Bool :=
  (approvedVaults.contains c.target &&
    (c.selector == FUNCTION_SELECTORS.redeem ||
     c.selector == FUNCTION_SELECTORS.deposit ||
     c.selector == FUNCTION_SELECTORS.withdraw)) ||
  (c.target == USDC_ADDRESS && c.selector == FUNCTION_SELECTORS.approve &&
    approvedVaults.contains (c.args.headD ""))

/-- The policy `executeRebalance` installs: scoped call policy when a
non-empty approved-vault list is supplied, the deprecated sudo policy
otherwise. -/
inductive SessionPolicy where
  | call (permissions : List Permission)
  | sudo
deriving DecidableEq, Repr

/-- The policy-selection branch of `executeRebalance` (step 5). -/
def executeRebalancePolicy (approvedVaults : Option (List String)) :
    SessionPolicy :=
  match approvedVaults with
  | some (v :: vs) => .call (buildScopedPermissions (v :: vs))
  | _ => .sudo

/-! ## Executors as effect traces

`executeRebalance` and `executeGaslessTransfer` are async functions whose
external actions are: constructing a signer from the session private key
(`privateKeyToAccount`), submitting the user operation to the bundler
(`sendUserOperation`), and polling for the receipt
(`waitForUserOperationReceipt`).  Each is embedded as a pure function of
an environment giving the outcomes of the network calls, returning the
result together with the ordered trace of those primitives. -/

/-- A real signing or network-submission primitive invoked by an
executor. -/
inductive ChainEffect where
  | createSigner
  | sendUserOperation (calls : List RebalanceCall)
  | waitForReceipt
deriving DecidableEq, Repr

/-- Outcomes of the two network calls an executor makes: the user-op
submission (yielding the userOp hash) and the receipt wait (yielding the
transaction hash).  `Except.error` is a thrown exception. -/
structure NetEnv where
  submit : Except String String
  receipt : Except String String
deriving Repr

/-- `RebalanceResult`. -/
structure RebalanceResult where
  taskId : String
  success : Bool
  error? : Option String
deriving DecidableEq, Repr

/-- `executeRebalance` (exception behaviour and effect trace).  The
`isSimulationMode` flag (`AGENT_SIMULATION_MODE === 'true'`) is a
parameter but — faithful to the source — is never consulted: the function
unconditionally constructs the signer, submits the batch built by
`buildRebalanceCalls`, and waits for the receipt; any thrown error is
caught and returned as `{taskId: '', success: false, error}`. -/
def executeRebalance (isSimulationMode : Bool) (params : RebalanceParams)
    (env : NetEnv) : RebalanceResult × List ChainEffect :=
  let _ := isSimulationMode
  let calls := buildRebalanceCalls params
  match env.submit with
  | .error e =>
    ({ taskId := "", success := false, error? := some e },
      [.createSigner, .sendUserOperation calls])
  | .ok _ =>
    match env.receipt with
    | .error e =>
      ({ taskId := "", success := false, error? := some e },
        [.createSigner, .sendUserOperation calls, .waitForReceipt])
    | .ok txHash =>
      ({ taskId := txHash, success := true, error? := none },
        [.createSigner, .sendUserOperation calls, .waitForReceipt])

/-! ## Gasless transfer executor (src/lib/zerodev/transfer-executor.ts) -/

/-- `GaslessTransferParams`.  `amount` is a decimal USDC string in the
source; it is embedded as the exact rational it denotes
(`parseUnits(amount, 6)` is then multiplication by `10^6`). -/
structure GaslessTransferParams where
  userAddress : String
  smartAccountAddress : String
  recipient : String
  amount : ℚ
  sessionPrivateKey : String
deriving DecidableEq, Repr

/-- `GaslessTransferResult`. -/
structure GaslessTransferResult where
  hash : String
  success : Bool
  error? : Option String
  userOpHash? : Option String
deriving DecidableEq, Repr

/-- The three `Math.random().toString(16).slice(2)` draws used for the
fabricated simulation hash and the one used for the fabricated userOp
hash. -/
structure SimRandomness where
  r1 : String
  r2 : String
  r3 : String
  rOp : String
deriving DecidableEq, Repr

/-- `executeGaslessTransfer`: when `AGENT_SIMULATION_MODE === 'true'`, the
function short-circuits before any signing or network primitive and
returns a fabricated success; otherwise it constructs the signer, submits
the single USDC `transfer` call, and waits for the receipt, catching any
thrown error. -/
def executeGaslessTransfer (isSimulationMode : Bool)
    (params : GaslessTransferParams) (rand : SimRandomness) (env : NetEnv) :
    GaslessTransferResult × List ChainEffect :=
  if isSimulationMode then
    ({ hash := "0x" ++ rand.r1 ++ rand.r2 ++ rand.r3
       success := true
       error? := none
       userOpHash? := some ("0xUserOp" ++ rand.rOp) }, [])
  else
    let transferCall : RebalanceCall :=
      { toAddr := USDC_ADDRESS
        data := .transfer params.recipient ⌊params.amount * 1000000⌋
        value := 0 }
    match env.submit with
    | .error e =>
      ({ hash := "", success := false, error? := some e, userOpHash? := none },
        [.createSigner, .sendUserOperation [transferCall]])
    | .ok userOpHash =>
      match env.receipt with
      | .error e =>
        ({ hash := "", success := false, error? := some e, userOpHash? := none },
          [.createSigner, .sendUserOperation [transferCall], .waitForReceipt])
      | .ok txHash =>
        ({ hash := txHash, success := true, error? := none
           userOpHash? := some userOpHash },
          [.createSigner, .sendUserOperation [transferCall], .waitForReceipt])

/-! ## Oracle safety gate (src/lib/oracles/chainlink.ts)

The two feeds are read through `publicClient.readContract`; each read can
throw.  The environment gives the outcome of each read together with the
current time `Math.floor(Date.now() / 1000)`.  Date/price formatting in
the stale and depeg reason strings (`toISOString`, `toFixed`) is
abstracted to `toString` of the raw value: no claim depends on those two
strings' exact content. -/

/-- The tuple returned by `latestRoundData()`. -/
structure RoundData where
  roundId : ℤ
  answer : ℤ
  startedAt : ℤ
  updatedAt : ℤ
  answeredInRound : ℤ
deriving DecidableEq, Repr

/-- Outcomes of the three on-chain reads and the wall clock. -/
structure OracleEnv where
  sequencerRead : Except String RoundData
  priceRead : Except String RoundData
  decimalsRead : Except String ℕ
  now : ℤ
deriving Repr

/-- `STALENESS_THRESHOLD = 86400` seconds. -/
def STALENESS_THRESHOLD : ℤ := 86400

/-- `DEPEG_THRESHOLD = 0.005`. -/
def DEPEG_THRESHOLD : ℚ := 5 / 1000

/-- `SEQUENCER_GRACE_PERIOD = 3600` seconds. -/
def SEQUENCER_GRACE_PERIOD : ℤ := 3600

/-- Result of `isSequencerUp`. -/
structure SeqStatus where
  up : Bool
  reason? : Option String
deriving DecidableEq, Repr

/-- `isSequencerUp`: reads the uptime feed (a thrown read error
propagates); non-zero answer means the sequencer is down; an answer of
zero within the grace period of `startedAt` means it restarted too
recently to trust prices. -/
def isSequencerUp (env : OracleEnv) : Except String SeqStatus := do
  let rd ← env.sequencerRead
  if rd.answer ≠ 0 then
    return { up := false, reason? := some "Base L2 sequencer is down" }
  let timeSinceUp := env.now - rd.startedAt
  if timeSinceUp < SEQUENCER_GRACE_PERIOD then
    return { up := false
             reason? := some ("Base L2 sequencer recently restarted (" ++
               toString timeSinceUp ++ "s ago, grace period: " ++
               toString SEQUENCER_GRACE_PERIOD ++ "s)") }
  return { up := true, reason? := none }

/-- `PriceFeedResult`. -/
structure PriceFeedResult where
  price : ℚ
  updatedAt : ℤ
  isStale : Bool
  isDepegged : Bool
  roundId : ℤ
deriving DecidableEq, Repr

/-- `getUsdcPrice`: reads the price round then the feed decimals (either
read may throw and propagate), scales the answer, and computes the stale
and depeg flags. -/
def getUsdcPrice (env : OracleEnv) : Except String PriceFeedResult := do
  let rd ← env.priceRead
  let decimals ← env.decimalsRead
  let price : ℚ := (rd.answer : ℚ) / 10 ^ decimals
  return { price := price
           updatedAt := rd.updatedAt
           isStale := STALENESS_THRESHOLD < env.now - rd.updatedAt
           isDepegged := DEPEG_THRESHOLD < |price - 1|
           roundId := rd.roundId }

/-- Result of `isRebalanceSafe`. -/
structure SafeResult where
  safe : Bool
  reason? : Option String
deriving DecidableEq, Repr

/-- `isRebalanceSafe`: sequencer check first (returning its reason when it
fails), then the price feed's stale and depeg checks; any exception thrown
by either check is caught and reported as unsafe with the underlying
message.  Total by construction: the `try/catch` is the outer `match`. -/
def isRebalanceSafe (env : OracleEnv) : SafeResult :=
  let body : Except String SafeResult := do
    let sequencerStatus ← isSequencerUp env
    if !sequencerStatus.up then
      return { safe := false, reason? := sequencerStatus.reason? }
    let priceData ← getUsdcPrice env
    if priceData.isStale then
      return { safe := false
               reason? := some ("Chainlink USDC/USD data stale (last update: " ++
                 toString priceData.updatedAt ++ ")") }
    if priceData.isDepegged then
      return { safe := false
               reason? := some ("USDC depegged: " ++ toString priceData.price) }
    return { safe := true, reason? := none }
  match body with
  | .ok r => r
  | .error e => { safe := false, reason? := some ("Chainlink oracle error: " ++ e) }

/-- The first read error the control flow of `isRebalanceSafe` reaches, if
any: the sequencer read; then — only if the sequencer read succeeded with
answer 0 and outside the grace period — the price read and the decimals
read. -/
def firstOracleReadError (env : OracleEnv) : Option String :=
  match env.sequencerRead with
  | .error e => some e
  | .ok rd =>
    if rd.answer ≠ 0 then none
    else if env.now - rd.startedAt < SEQUENCER_GRACE_PERIOD then none
    else
      match env.priceRead with
      | .error e => some e
      | .ok _ =>
        match env.decimalsRead with
        | .error e => some e
        | .ok _ => none

/-! ## Rate limiter (src/lib/rate-limiter.ts)

The module-level `transferAttempts : Map<string, TransferAttempt[]>` is
embedded as a total function from keys to attempt lists (absent key =
`[]`, so `Map.get(k) || []` is plain application and `Map.delete` is
setting `[]`); `Date.now()` is an explicit `now` parameter. -/

/-- `TransferAttempt`. -/
structure TransferAttempt where
  timestamp : ℤ
  amount : ℚ
  success : Bool
deriving DecidableEq, Repr

/-- The rate limiter's backing map. -/
def TransferStore : Type := String → List TransferAttempt

/-- The empty map. -/
def emptyStore : TransferStore := fun _ => []

/-- `Map.set`. -/
def storeSet (s : TransferStore) (key : String) (v : List TransferAttempt) :
    TransferStore :=
  fun k => if k = key then v else s k

/-- `userAddress.toLowerCase()` on one character: ASCII A–Z maps to a–z
(identity keys are hex addresses, all ASCII). -/
def jsLowerChar (c : Char) : Char :=
  if 65 ≤ c.toNat ∧ c.toNat ≤ 90 then Char.ofNat (c.toNat + 32) else c

/-- `userAddress.toLowerCase()`. -/
def jsToLower (s : String) : String :=
  ⟨s.data.map jsLowerChar⟩

/-- `RateLimitConfig`. -/
structure RateLimitConfig where
  maxTransfersPerDay : ℕ
  maxAmountPerTransfer : ℚ
  windowMs : ℤ
deriving DecidableEq, Repr

/-- `DEFAULT_CONFIG`: 20 transfers per day, $500 per transfer, 24-hour
window. -/
def DEFAULT_CONFIG : RateLimitConfig :=
  { maxTransfersPerDay := 20
    maxAmountPerTransfer := 500
    windowMs := 24 * 60 * 60 * 1000 }

/-- The two rejection reason strings of `checkTransferRateLimit`
(interpolated amounts and dates abstracted). -/
inductive RateLimitReason where
  | amountExceedsMax
  | dailyLimitReached
deriving DecidableEq, Repr

/-- `RateLimitResult`. -/
structure RateLimitResult where
  allowed : Bool
  reason? : Option RateLimitReason
  attemptsRemaining? : Option ℤ
  resetTime? : Option ℤ
deriving DecidableEq, Repr

/-- Stand-in for the JS `undefined` that `recentAttempts[0]` yields on an
empty list.  The at-cap branch reads it only when
`maxTransfersPerDay = 0` and the window is empty — there the TS code
throws (`undefined.timestamp`); every claim constrains
`maxTransfersPerDay ≥ 1`, which forces the window non-empty in that
branch, so this value is never observable in any theorem below. -/
def undefinedAttempt : TransferAttempt :=
  { timestamp := 0, amount := 0, success := false }

/-- `checkTransferRateLimit`: prune the identity's history to the window
(writing the pruned list back), reject over-cap amounts, then count only
successful attempts against the daily cap; at the cap, the reset time is
the oldest *recent* attempt's timestamp plus the window.  Returns the
result together with the updated store. -/
def checkTransferRateLimit (store : TransferStore) (now : ℤ)
    (userAddress : String) (amount : ℚ)
    (config : RateLimitConfig := DEFAULT_CONFIG) :
    RateLimitResult × TransferStore :=
  let windowStart := now - config.windowMs
  let attempts := store (jsToLower userAddress)
  let recentAttempts := attempts.filter fun a => windowStart < a.timestamp
  let store' := storeSet store (jsToLower userAddress) recentAttempts
  if config.maxAmountPerTransfer < amount then
    ({ allowed := false
       reason? := some .amountExceedsMax
       attemptsRemaining? := none
       resetTime? := none }, store')
  else
    let successfulTransfers := (recentAttempts.filter fun a => a.success).length
    if config.maxTransfersPerDay ≤ successfulTransfers then
      let oldestAttempt := recentAttempts.foldl
        (fun oldest a => if a.timestamp < oldest.timestamp then a else oldest)
        (recentAttempts.headD undefinedAttempt)
      let resetTime := oldestAttempt.timestamp + config.windowMs
      ({ allowed := false
         reason? := some .dailyLimitReached
         attemptsRemaining? := some 0
         resetTime? := some resetTime }, store')
    else
      ({ allowed := true
         reason? := none
         attemptsRemaining? :=
           some ((config.maxTransfersPerDay : ℤ) - successfulTransfers)
         resetTime? := none }, store')

/-- `30 * 24 * 60 * 60 * 1000` milliseconds. -/
def THIRTY_DAYS_MS : ℤ := 30 * 24 * 60 * 60 * 1000

/-- `recordTransferAttempt`: append the attempt to the identity's history,
then immediately re-filter it to the last 30 days (the intermediate
un-cleaned `Map.set` is overwritten by the second `Map.set`). -/
def recordTransferAttempt (store : TransferStore) (now : ℤ)
    (userAddress : String) (amount : ℚ) (success : Bool) : TransferStore :=
  let attempts := store (jsToLower userAddress) ++
    [{ timestamp := now, amount := amount, success := success }]
  let thirtyDaysAgo := now - THIRTY_DAYS_MS
  let cleaned := attempts.filter fun a => thirtyDaysAgo < a.timestamp
  storeSet store (jsToLower userAddress) cleaned

/-- `resetUserRateLimit`: `Map.delete` (absent = `[]` in this model). -/
def resetUserRateLimit (store : TransferStore) (userAddress : String) :
    TransferStore :=
  storeSet store (jsToLower userAddress) []

/-- `getUserTransferHistory`: the identity's attempts within the current
window (read-only). -/
def getUserTransferHistory (store : TransferStore) (now : ℤ)
    (userAddress : String) (config : RateLimitConfig := DEFAULT_CONFIG) :
    List TransferAttempt :=
  (store (jsToLower userAddress)).filter fun a =>
    now - config.windowMs < a.timestamp

/-! ## Shared helper lemmas -/

theorem storeSet_same (s : TransferStore) (k : String)
    (v : List TransferAttempt) : storeSet s k v k = v := by
  simp [storeSet]

theorem storeSet_other (s : TransferStore) (k k' : String)
    (v : List TransferAttempt) (h : k' ≠ k) : storeSet s k v k' = s k' := by
  simp [storeSet, h]

/-! ## Claim theorems -/

/-- C4: for every `RebalanceParams`, `buildRebalanceCalls` returns exactly
three calls in order — redeem on the source vault, approve on USDC with
spender = destination vault, deposit on the destination vault — each with
value 0. -/
theorem c4_rebalance_call_ordering (params : RebalanceParams) :
    buildRebalanceCalls params =
      [ { toAddr := params.fromVault
          data := .redeem params.shares params.userAddress params.userAddress
          value := 0 }
      , { toAddr := USDC_ADDRESS
          data := .approve params.toVault MAX_UINT256
          value := 0 }
      , { toAddr := params.toVault
          data := .deposit MAX_UINT256 params.userAddress
          value := 0 } ] ∧
    ((buildRebalanceCalls params).map fun c => (c.toAddr, c.data.selector)) =
      [ (params.fromVault, FUNCTION_SELECTORS.redeem)
      , (USDC_ADDRESS, FUNCTION_SELECTORS.approve)
      , (params.toVault, FUNCTION_SELECTORS.deposit) ] ∧
    ∀ c ∈ buildRebalanceCalls params, c.value = 0 := by
  refine ⟨rfl, rfl, ?_⟩
  intro c hc
  simp only [buildRebalanceCalls, List.mem_cons, List.not_mem_nil, or_false] at hc
  rcases hc with h | h | h <;> subst h <;> rfl

/-- C3 counterexample: with the single approved vault `"0xVaultA"`, the
call policy built by `buildScopedPermissions` permits an `approve` on USDC
whose spender (`"0xAttacker"`) is *not* an approved vault, whereas the
spec's allow-list (approve restricted to spender = an approved vault)
rejects it: the constructed permission set is not the one the claim
describes. -/
theorem c3_counterexample :
    policyPermits (buildScopedPermissions ["0xVaultA"])
      { target := USDC_ADDRESS
        selector := FUNCTION_SELECTORS.approve
        args := ["0xAttacker", "115792089237316195423570985008687907853269984665640564039457584007913129639935"] } = true ∧
    specScopedPermits ["0xVaultA"]
      { target := USDC_ADDRESS
        selector := FUNCTION_SELECTORS.approve
        args := ["0xAttacker", "115792089237316195423570985008687907853269984665640564039457584007913129639935"] } = false := by
  constructor <;> rfl

theorem mem_buildScopedPermissions (vaults : List String) (p : Permission) :
    p ∈ buildScopedPermissions vaults ↔
      (∃ v ∈ vaults,
        p = { target := v, selector := FUNCTION_SELECTORS.redeem } ∨
        p = { target := v, selector := FUNCTION_SELECTORS.deposit } ∨
        p = { target := v, selector := FUNCTION_SELECTORS.withdraw }) ∨
      p = { target := USDC_ADDRESS, selector := FUNCTION_SELECTORS.approve } := by
  unfold buildScopedPermissions
  rw [List.mem_append]
  have key : ∀ (vs : List String) (init : List Permission),
      p ∈ vs.foldl
        (fun permissions vaultAddress =>
          permissions ++
            [ { target := vaultAddress, selector := FUNCTION_SELECTORS.redeem }
            , { target := vaultAddress, selector := FUNCTION_SELECTORS.deposit }
            , { target := vaultAddress, selector := FUNCTION_SELECTORS.withdraw } ])
        init ↔
      p ∈ init ∨ ∃ v ∈ vs,
        p = { target := v, selector := FUNCTION_SELECTORS.redeem } ∨
        p = { target := v, selector := FUNCTION_SELECTORS.deposit } ∨
        p = { target := v, selector := FUNCTION_SELECTORS.withdraw } := by
    intro vs
    induction vs with
    | nil => simp
    | cons v vs ih =>
      intro init
      rw [List.foldl_cons, ih, List.exists_mem_cons_iff]
      simp only [List.mem_append, List.mem_cons, List.not_mem_nil, or_false]
      exact or_assoc
  rw [key]
  simp [or_comm]

/-- C3 amended: for every non-empty approved-vault list, the call policy
built by `buildScopedPermissions` permits exactly the (target, selector)
pairs redeem/deposit/withdraw on each approved vault plus approve on USDC
— for *any* spender: the source attaches no argument condition to the
approve entry, so the spec's "restricted to spender = an approved vault"
does not hold, and the rest of the allow-list description does. -/
theorem c3_amended_scoped_permissions (vaults : List String)
    (c : CallRequest) (hne : vaults ≠ []) :
    policyPermits (buildScopedPermissions vaults) c = true ↔
      ((c.target ∈ vaults ∧
         (c.selector = FUNCTION_SELECTORS.redeem ∨
          c.selector = FUNCTION_SELECTORS.deposit ∨
          c.selector = FUNCTION_SELECTORS.withdraw)) ∨
       (c.target = USDC_ADDRESS ∧ c.selector = FUNCTION_SELECTORS.approve)) := by
  clear hne
  simp only [policyPermits, List.any_eq_true, Bool.and_eq_true, beq_iff_eq]
  constructor
  · rintro ⟨p, hp, ht, hs⟩
    rcases (mem_buildScopedPermissions vaults p).mp hp with ⟨v, hv, hp3⟩ | hp1
    · refine .inl ⟨?_, ?_⟩
      · rcases hp3 with h | h | h <;> subst h <;> simpa [← ht] using hv
      · rcases hp3 with h | h | h <;> subst h <;> simp [← hs]
    · subst hp1
      exact .inr ⟨ht.symm, hs.symm⟩
  · rintro (⟨hmem, hsel⟩ | ⟨ht, hs⟩)
    · rcases hsel with h | h | h
      · exact ⟨{ target := c.target, selector := FUNCTION_SELECTORS.redeem },
          (mem_buildScopedPermissions vaults _).mpr (.inl ⟨c.target, hmem, .inl rfl⟩),
          rfl, h.symm⟩
      · exact ⟨{ target := c.target, selector := FUNCTION_SELECTORS.deposit },
          (mem_buildScopedPermissions vaults _).mpr
            (.inl ⟨c.target, hmem, .inr (.inl rfl)⟩),
          rfl, h.symm⟩
      · exact ⟨{ target := c.target, selector := FUNCTION_SELECTORS.withdraw },
          (mem_buildScopedPermissions vaults _).mpr
            (.inl ⟨c.target, hmem, .inr (.inr rfl)⟩),
          rfl, h.symm⟩
    · exact ⟨{ target := USDC_ADDRESS, selector := FUNCTION_SELECTORS.approve },
        (mem_buildScopedPermissions vaults _).mpr (.inr rfl), ht.symm, hs.symm⟩

/-- C3 amended witness: the amended equivalence applied to the concrete
vault list `["0xVaultA"]` and a deposit call on that vault. -/
theorem c3_amended_scoped_permissions_witness :
    (["0xVaultA"] : List String) ≠ [] ∧
    (policyPermits (buildScopedPermissions ["0xVaultA"])
        { target := "0xVaultA", selector := "0x6e553f65", args := [] } = true ↔
      ((("0xVaultA" : String) ∈ ["0xVaultA"] ∧
         (("0x6e553f65" : String) = FUNCTION_SELECTORS.redeem ∨
          ("0x6e553f65" : String) = FUNCTION_SELECTORS.deposit ∨
          ("0x6e553f65" : String) = FUNCTION_SELECTORS.withdraw)) ∨
       (("0xVaultA" : String) = USDC_ADDRESS ∧
         ("0x6e553f65" : String) = FUNCTION_SELECTORS.approve))) :=
  ⟨by simp,
   c3_amended_scoped_permissions ["0xVaultA"]
     { target := "0xVaultA", selector := "0x6e553f65", args := [] }
     (by simp)⟩

/-- C5 (supporting theorem for the code bug): in simulation mode the
gasless transfer executor performs no signing or network primitive and
returns a fabricated well-formed success, but `executeRebalance` ignores
the simulation flag entirely — it constructs a real signer and submits the
user operation to the bundler in every run, simulation mode included. -/
theorem c5_simulation_mode_divergence :
    (∀ (params : GaslessTransferParams) (rand : SimRandomness) (env : NetEnv),
      (executeGaslessTransfer true params rand env).2 = [] ∧
      (executeGaslessTransfer true params rand env).1.success = true ∧
      (executeGaslessTransfer true params rand env).1.hash =
        "0x" ++ rand.r1 ++ rand.r2 ++ rand.r3) ∧
    (∀ (params : RebalanceParams) (env : NetEnv),
      ChainEffect.createSigner ∈ (executeRebalance true params env).2 ∧
      ChainEffect.sendUserOperation (buildRebalanceCalls params) ∈
        (executeRebalance true params env).2) := by
  constructor
  · intro params rand env
    exact ⟨rfl, rfl, rfl⟩
  · intro params env
    unfold executeRebalance
    rcases env.submit with e | v
    · simp
    · rcases env.receipt with e | tx <;> simp

theorem isSequencerUp_down (env : OracleEnv) (rd : RoundData)
    (hread : env.sequencerRead = .ok rd) (h : rd.answer ≠ 0) :
    isSequencerUp env =
      .ok { up := false, reason? := some "Base L2 sequencer is down" } := by
  simp [isSequencerUp, hread, h, Bind.bind, Except.bind, pure, Except.pure]

theorem isSequencerUp_grace (env : OracleEnv) (rd : RoundData)
    (hread : env.sequencerRead = .ok rd) (h0 : rd.answer = 0)
    (hg : env.now - rd.startedAt < SEQUENCER_GRACE_PERIOD) :
    isSequencerUp env =
      .ok { up := false
            reason? := some ("Base L2 sequencer recently restarted (" ++
              toString (env.now - rd.startedAt) ++ "s ago, grace period: " ++
              toString SEQUENCER_GRACE_PERIOD ++ "s)") } := by
  simp [isSequencerUp, hread, h0, hg, Bind.bind, Except.bind, pure, Except.pure]

/-- C6: whenever the sequencer-liveness check fails (non-zero uptime
answer, or back up for less than the 1-hour grace period),
`isRebalanceSafe` returns unsafe with the sequencer reason, and the
price-feed oracle is never read: the result does not depend on the price
or decimals reads at all. -/
theorem c6_sequencer_short_circuit (env : OracleEnv) (rd : RoundData)
    (hread : env.sequencerRead = .ok rd)
    (hfail : rd.answer ≠ 0 ∨ env.now - rd.startedAt < SEQUENCER_GRACE_PERIOD) :
    isRebalanceSafe env =
      { safe := false
        reason? := some (if rd.answer ≠ 0 then "Base L2 sequencer is down"
          else ("Base L2 sequencer recently restarted (" ++
            toString (env.now - rd.startedAt) ++ "s ago, grace period: " ++
            toString SEQUENCER_GRACE_PERIOD ++ "s)")) } ∧
    ∀ env' : OracleEnv, env'.sequencerRead = env.sequencerRead →
      env'.now = env.now → isRebalanceSafe env' = isRebalanceSafe env := by
  have main : ∀ e : OracleEnv, e.sequencerRead = .ok rd → e.now = env.now →
      isRebalanceSafe e =
        { safe := false
          reason? := some (if rd.answer ≠ 0 then "Base L2 sequencer is down"
            else ("Base L2 sequencer recently restarted (" ++
              toString (env.now - rd.startedAt) ++ "s ago, grace period: " ++
              toString SEQUENCER_GRACE_PERIOD ++ "s)")) } := by
    intro e he hnow
    by_cases h : rd.answer ≠ 0
    · rw [isRebalanceSafe, isSequencerUp_down e rd he h, if_pos h]
      rfl
    · push_neg at h
      have hg : e.now - rd.startedAt < SEQUENCER_GRACE_PERIOD := by
        rw [hnow]
        rcases hfail with hf | hf
        · exact absurd h hf
        · exact hf
      rw [isRebalanceSafe, isSequencerUp_grace e rd he h hg, hnow,
        if_neg (by simp [h])]
      rfl
  exact ⟨main env hread rfl, fun env' h1 h2 =>
    (main env' (h1.trans hread) h2).trans (main env hread rfl).symm⟩

/-- C6 witness: the theorem applied to a concrete environment whose uptime
feed answers 1 ("down"). -/
theorem c6_sequencer_short_circuit_witness :
    (OracleEnv.mk (.ok ⟨1, 1, 0, 0, 0⟩) (.error "boom") (.error "boom") 50000).sequencerRead
        = .ok ⟨1, 1, 0, 0, 0⟩ ∧
    ((1 : ℤ) ≠ 0 ∨ (50000 : ℤ) - 0 < SEQUENCER_GRACE_PERIOD) ∧
    (isRebalanceSafe (OracleEnv.mk (.ok ⟨1, 1, 0, 0, 0⟩) (.error "boom") (.error "boom") 50000) =
      { safe := false
        reason? := some (if (1 : ℤ) ≠ 0 then "Base L2 sequencer is down"
          else ("Base L2 sequencer recently restarted (" ++
            toString ((50000 : ℤ) - 0) ++ "s ago, grace period: " ++
            toString SEQUENCER_GRACE_PERIOD ++ "s)")) } ∧
      ∀ env' : OracleEnv,
        env'.sequencerRead =
          (OracleEnv.mk (.ok ⟨1, 1, 0, 0, 0⟩) (.error "boom") (.error "boom") 50000).sequencerRead →
        env'.now =
          (OracleEnv.mk (.ok ⟨1, 1, 0, 0, 0⟩) (.error "boom") (.error "boom") 50000).now →
        isRebalanceSafe env' =
          isRebalanceSafe (OracleEnv.mk (.ok ⟨1, 1, 0, 0, 0⟩) (.error "boom") (.error "boom") 50000)) :=
  ⟨rfl, .inl (by decide),
   c6_sequencer_short_circuit _ ⟨1, 1, 0, 0, 0⟩ rfl (.inl (by decide))⟩

/-- C7: `isRebalanceSafe` is total (it is a Lean function), and whenever
the control flow reaches a read that throws, the error is caught and
reported as unsafe with a reason carrying the underlying message. -/
theorem c7_oracle_errors_caught (env : OracleEnv) (e : String)
    (herr : firstOracleReadError env = some e) :
    isRebalanceSafe env =
      { safe := false, reason? := some ("Chainlink oracle error: " ++ e) } := by
  unfold firstOracleReadError at herr
  rcases hseq : env.sequencerRead with es | rd
  · rw [hseq] at herr
    injection herr with he
    subst he
    rw [isRebalanceSafe]
    simp [isSequencerUp, hseq, Bind.bind, Except.bind, pure, Except.pure]
  · rw [hseq] at herr
    by_cases h : rd.answer ≠ 0
    · simp [h] at herr
    · push_neg at h
      by_cases hg : env.now - rd.startedAt < SEQUENCER_GRACE_PERIOD
      · simp [h, hg] at herr
      · rcases hprice : env.priceRead with ep | prd
        · rw [hprice] at herr
          simp [h, hg] at herr
          subst herr
          rw [isRebalanceSafe]
          simp [isSequencerUp, hseq, h, hg, getUsdcPrice, hprice, Bind.bind, Except.bind, pure, Except.pure]
        · rcases hdec : env.decimalsRead with ed | d
          · rw [hprice, hdec] at herr
            simp [h, hg] at herr
            subst herr
            rw [isRebalanceSafe]
            simp [isSequencerUp, hseq, h, hg, getUsdcPrice, hprice, hdec, Bind.bind, Except.bind, pure, Except.pure]
          · rw [hprice, hdec] at herr
            simp [h, hg] at herr

/-- C7 witness: the theorem applied to an environment whose sequencer read
throws "rpc timeout". -/
theorem c7_oracle_errors_caught_witness :
    firstOracleReadError
        (OracleEnv.mk (.error "rpc timeout") (.ok ⟨1, 100000000, 0, 0, 0⟩) (.ok 8) 50000) =
      some "rpc timeout" ∧
    isRebalanceSafe
        (OracleEnv.mk (.error "rpc timeout") (.ok ⟨1, 100000000, 0, 0, 0⟩) (.ok 8) 50000) =
      { safe := false
        reason? := some ("Chainlink oracle error: " ++ "rpc timeout") } :=
  ⟨rfl, c7_oracle_errors_caught _ "rpc timeout" rfl⟩

/-- C1 counterexample: the spec's scenario B input — a $1000 position at
9.6% APY, best opportunity at 10% APY with risk score 0 in a different
protocol — yields `shouldRebalance = true` with net gain 1.59%, not
`false`: the code discounts the current position's APY by the flat 0.85
factor (9.6% → 8.16%), so the improvement is ≈1.84%, not the 0.4% the
claim computes. -/
theorem c1_counterexample :
    (evaluateRebalance
        (.single { protocol := .aave, vaultAddress := "0xSourceVault", shares := 0
                   assets := 1000000000, apy := 96/1000, enteredAt := 0 })
        [{ id := "opp-1", protocol := .morpho, name := "Best Vault", asset := "USDC"
           apy := 1/10, tvl := 0, address := "0xDestVault", riskScore := 0
           liquidityDepth := 0 }] 0).shouldRebalance = true ∧
    (evaluateRebalance
        (.single { protocol := .aave, vaultAddress := "0xSourceVault", shares := 0
                   assets := 1000000000, apy := 96/1000, enteredAt := 0 })
        [{ id := "opp-1", protocol := .morpho, name := "Best Vault", asset := "USDC"
           apy := 1/10, tvl := 0, address := "0xDestVault", riskScore := 0
           liquidityDepth := 0 }] 0).netGain = 159 / 10000 := by
  constructor <;>
  · simp only [evaluateRebalance, evaluateRebalanceWith, normalizePositions,
      bestOpportunity, List.foldl_nil, estimateCosts, riskAdjustedApy,
      MIN_REBALANCE_THRESHOLD, ESTIMATED_GAS_COST_USD]
    norm_num
    try simp

/-- C1 amended: in the scenario of spec scenario B (current position at
9.6% APY, best opportunity at 10% APY with risk score 0 in a different
protocol), `evaluateRebalance` returns `shouldRebalance = true` whenever
the position is worth at least $50 (so the flat-gas fraction of the
gas-inclusive cost model is at most 1%): the 0.85 discount on the current
APY makes the adjusted improvement ≈1.84%, leaving a net gain above the
0.5% threshold. -/
theorem c1_amended_scenario_b (pos : Position) (opp : YieldOpportunity)
    (balance : ℤ) (hapy : pos.apy = 96/1000)
    (hassets : (50000000 : ℤ) ≤ pos.assets) (hoapy : opp.apy = 1/10)
    (hrisk : opp.riskScore = 0) (hproto : pos.protocol ≠ opp.protocol) :
    (evaluateRebalance (.single pos) [opp] balance).shouldRebalance = true := by
  have hq : (50000000:ℚ) ≤ (pos.assets:ℚ) := by exact_mod_cast hassets
  have hpos : (0:ℚ) < (pos.assets:ℚ) / 1000000 := by
    have h0 : (0:ℚ) < (pos.assets:ℚ) := by linarith
    positivity
  have hgas : (1:ℚ)/2 / ((pos.assets:ℚ) / 1000000) ≤ 1/100 := by
    rw [div_div_eq_mul_div]
    rw [div_le_div_iff (by linarith) (by norm_num)]
    linarith
  simp only [evaluateRebalance, evaluateRebalanceWith, normalizePositions,
    bestOpportunity, List.foldl_nil, estimateCosts, riskAdjustedApy,
    MIN_REBALANCE_THRESHOLD, ESTIMATED_GAS_COST_USD, Option.isSome_some,
    if_true, hapy, hoapy, hrisk]
  rw [if_neg hproto, if_pos hpos]
  simp only [decide_eq_true_eq]
  norm_num
  linarith

/-- C1 amended witness: the amended theorem at the $1000 concrete
scenario. -/
theorem c1_amended_scenario_b_witness :
    ((96:ℚ)/1000 = 96/1000) ∧ ((50000000 : ℤ) ≤ 1000000000) ∧
    ((1:ℚ)/10 = 1/10) ∧ ((0:ℚ) = 0) ∧ Protocol.aave ≠ Protocol.morpho ∧
    (evaluateRebalance
        (.single { protocol := .aave, vaultAddress := "0xSourceVault", shares := 0
                   assets := 1000000000, apy := 96/1000, enteredAt := 0 })
        [{ id := "opp-1", protocol := .morpho, name := "Best Vault", asset := "USDC"
           apy := 1/10, tvl := 0, address := "0xDestVault", riskScore := 0
           liquidityDepth := 0 }] 0).shouldRebalance = true :=
  ⟨rfl, by norm_num, rfl, rfl, by simp,
   c1_amended_scenario_b
     { protocol := .aave, vaultAddress := "0xSourceVault", shares := 0
       assets := 1000000000, apy := 96/1000, enteredAt := 0 }
     { id := "opp-1", protocol := .morpho, name := "Best Vault", asset := "USDC"
       apy := 1/10, tvl := 0, address := "0xDestVault", riskScore := 0
       liquidityDepth := 0 }
     0 rfl (by norm_num) rfl rfl (by simp)⟩

/-- C2 counterexample: with a current aave position at 5% APY, raising the
aave candidate's APY from 1% to 20% (all other fields unchanged) flips
`shouldRebalance` from `true` (move to the 10% morpho vault) to `false`:
the boosted candidate becomes the best opportunity and shares the current
position's protocol, so the engine reports "already in optimal position". -/
theorem c2_counterexample :
    ((1:ℚ)/100 < 2/10) ∧
    (evaluateRebalance
        (.single { protocol := .aave, vaultAddress := "0xS", shares := 0
                   assets := 1000000000, apy := 5/100, enteredAt := 0 })
        [ { id := "y", protocol := .morpho, name := "Y", asset := "USDC"
            apy := 1/10, tvl := 0, address := "0xY", riskScore := 0, liquidityDepth := 0 }
        , { id := "x", protocol := .aave, name := "X", asset := "USDC"
            apy := 1/100, tvl := 0, address := "0xX", riskScore := 0, liquidityDepth := 0 } ]
        0).shouldRebalance = true ∧
    (evaluateRebalance
        (.single { protocol := .aave, vaultAddress := "0xS", shares := 0
                   assets := 1000000000, apy := 5/100, enteredAt := 0 })
        [ { id := "y", protocol := .morpho, name := "Y", asset := "USDC"
            apy := 1/10, tvl := 0, address := "0xY", riskScore := 0, liquidityDepth := 0 }
        , { id := "x", protocol := .aave, name := "X", asset := "USDC"
            apy := 2/10, tvl := 0, address := "0xX", riskScore := 0, liquidityDepth := 0 } ]
        0).shouldRebalance = false := by
  refine ⟨by norm_num, ?_, ?_⟩ <;>
  · simp only [evaluateRebalance, evaluateRebalanceWith, normalizePositions,
      bestOpportunity, List.foldl_cons, List.foldl_nil, pickBetter,
      estimateCosts, riskAdjustedApy, MIN_REBALANCE_THRESHOLD,
      ESTIMATED_GAS_COST_USD]
    norm_num
    try simp

theorem pickBetter_pos (a o : YieldOpportunity)
    (h : riskAdjustedApy a < riskAdjustedApy o) : pickBetter a o = o := by
  rw [pickBetter, if_pos h]

theorem pickBetter_neg (a o : YieldOpportunity)
    (h : ¬ riskAdjustedApy a < riskAdjustedApy o) : pickBetter a o = a := by
  rw [pickBetter, if_neg h]

theorem riskAdjustedApy_pickBetter_left (a o : YieldOpportunity) :
    riskAdjustedApy a ≤ riskAdjustedApy (pickBetter a o) := by
  by_cases h : riskAdjustedApy a < riskAdjustedApy o
  · rw [pickBetter_pos a o h]; exact le_of_lt h
  · rw [pickBetter_neg a o h]

theorem riskAdjustedApy_pickBetter_right (a o : YieldOpportunity) :
    riskAdjustedApy o ≤ riskAdjustedApy (pickBetter a o) := by
  by_cases h : riskAdjustedApy a < riskAdjustedApy o
  · rw [pickBetter_pos a o h]
  · rw [pickBetter_neg a o h]; exact le_of_not_lt h

/-- Raising the accumulator's adjusted APY can only keep the fold's result
or replace it by the new accumulator, and never lowers the resulting
adjusted APY. -/
theorem foldl_pickBetter_shift (l : List YieldOpportunity) :
    ∀ a a' : YieldOpportunity,
      riskAdjustedApy a ≤ riskAdjustedApy a' →
      (l.foldl pickBetter a' = a' ∨ l.foldl pickBetter a' = l.foldl pickBetter a) ∧
      riskAdjustedApy (l.foldl pickBetter a) ≤
        riskAdjustedApy (l.foldl pickBetter a') := by
  induction l with
  | nil => exact fun a a' h => ⟨.inl rfl, h⟩
  | cons o t ih =>
    intro a a' h
    rw [List.foldl_cons, List.foldl_cons]
    by_cases ho : riskAdjustedApy a' < riskAdjustedApy o
    · have hoa : riskAdjustedApy a < riskAdjustedApy o := lt_of_le_of_lt h ho
      rw [pickBetter_pos a' o ho, pickBetter_pos a o hoa]
      exact ⟨.inr rfl, le_refl _⟩
    · rw [pickBetter_neg a' o ho]
      by_cases hoa : riskAdjustedApy a < riskAdjustedApy o
      · rw [pickBetter_pos a o hoa]
        exact ih o a' (le_of_not_lt ho)
      · rw [pickBetter_neg a o hoa]
        exact ih a a' h

/-- If the best opportunity's adjusted APY does not decrease and the new
best either avoids the current position's protocol or is the old best, a
positive rebalance decision is preserved. -/
theorem eval_true_of_best (cm : CostModel) (th : ℚ) (input : PositionsInput)
    (balance : ℤ) (h h2 : YieldOpportunity) (ts ts2 : List YieldOpportunity)
    (hadj : riskAdjustedApy (bestOpportunity h ts) ≤
      riskAdjustedApy (bestOpportunity h2 ts2))
    (hcase : (∀ p, normalizePositions input = some p →
        (bestOpportunity h2 ts2).protocol ≠ p.protocol) ∨
      bestOpportunity h2 ts2 = bestOpportunity h ts)
    (htrue : (evaluateRebalanceWith cm th input (h :: ts) balance).shouldRebalance
      = true) :
    (evaluateRebalanceWith cm th input (h2 :: ts2) balance).shouldRebalance
      = true := by
  rcases hp : normalizePositions input with _ | p
  · simp only [evaluateRebalanceWith, hp] at htrue ⊢
    by_cases hb : balance = 0
    · rw [if_pos hb] at htrue
      simp at htrue
    · rw [if_neg hb] at htrue ⊢
      simp only [decide_eq_true_eq] at htrue ⊢
      linarith
  · simp only [evaluateRebalanceWith, hp] at htrue ⊢
    by_cases hpp : p.protocol = (bestOpportunity h ts).protocol
    · rw [if_pos hpp] at htrue
      simp at htrue
    · rw [if_neg hpp] at htrue
      simp only [decide_eq_true_eq] at htrue
      rcases hcase with hne | heq
      · rw [if_neg (fun hh => hne p hp hh.symm)]
        simp only [decide_eq_true_eq]
        linarith
      · rw [heq, if_neg hpp]
        simp only [decide_eq_true_eq]
        linarith

/-- C2 amended: for a fixed current-position input, fixed cost model and
threshold, and a fixed list of other opportunities, increasing one
candidate opportunity's APY (all other fields unchanged) can only change
`shouldRebalance` from false to true — provided the candidate's risk score
is at most 1 (so a higher APY does not lower its risk-adjusted APY) and
the candidate is not in the current position's protocol.  Without the
protocol proviso the claim is false (`c2_counterexample`): the boosted
candidate can become the best opportunity and trigger the
"already in optimal position" branch. -/
theorem c2_amended_monotonicity (cm : CostModel) (th : ℚ)
    (input : PositionsInput) (balance : ℤ)
    (pre post : List YieldOpportunity) (x : YieldOpportunity) (a' : ℚ)
    (hapy : x.apy ≤ a') (hrisk : x.riskScore ≤ 1)
    (hproto : ∀ p, normalizePositions input = some p →
      x.protocol ≠ p.protocol)
    (htrue : (evaluateRebalanceWith cm th input (pre ++ x :: post)
      balance).shouldRebalance = true) :
    (evaluateRebalanceWith cm th input (pre ++ { x with apy := a' } :: post)
      balance).shouldRebalance = true := by
  set x' : YieldOpportunity := { x with apy := a' } with hx'
  have hadjx : riskAdjustedApy x ≤ riskAdjustedApy x' := by
    rw [hx']
    unfold riskAdjustedApy
    exact mul_le_mul_of_nonneg_right hapy (by linarith)
  have hx'proto : x'.protocol = x.protocol := rfl
  rcases pre with _ | ⟨p0, pre'⟩
  · simp only [List.nil_append] at htrue ⊢
    obtain ⟨hor, hle⟩ := foldl_pickBetter_shift post x x' hadjx
    refine eval_true_of_best cm th input balance x x' post post ?_ ?_ htrue
    · exact hle
    · rcases hor with h1 | h1
      · exact .inl fun p hp => by
          rw [bestOpportunity, h1, hx'proto]
          exact hproto p hp
      · exact .inr (by rw [bestOpportunity, bestOpportunity, h1])
  · simp only [List.cons_append] at htrue ⊢
    have hsplit : ∀ y : YieldOpportunity,
        bestOpportunity p0 (pre' ++ y :: post) =
          post.foldl pickBetter
            (pickBetter (pre'.foldl pickBetter p0) y) := by
      intro y
      rw [bestOpportunity, List.foldl_append, List.foldl_cons]
    set A := pre'.foldl pickBetter p0 with hA
    have hpickle : riskAdjustedApy (pickBetter A x) ≤
        riskAdjustedApy (pickBetter A x') := by
      by_cases hAx' : riskAdjustedApy A < riskAdjustedApy x'
      · rw [pickBetter_pos A x' hAx']
        by_cases hAx : riskAdjustedApy A < riskAdjustedApy x
        · rw [pickBetter_pos A x hAx]; exact hadjx
        · rw [pickBetter_neg A x hAx]; exact le_of_lt hAx'
      · rw [pickBetter_neg A x' hAx']
        have hAx : ¬ riskAdjustedApy A < riskAdjustedApy x :=
          fun hc => hAx' (lt_of_lt_of_le hc hadjx)
        rw [pickBetter_neg A x hAx]
    obtain ⟨hor, hle⟩ :=
      foldl_pickBetter_shift post (pickBetter A x) (pickBetter A x') hpickle
    refine eval_true_of_best cm th input balance p0 p0
      (pre' ++ x :: post) (pre' ++ x' :: post) ?_ ?_ htrue
    · rw [hsplit x, hsplit x']
      exact hle
    · by_cases hAx' : riskAdjustedApy A < riskAdjustedApy x'
      · rcases hor with h1 | h1
        · refine .inl fun p hp => ?_
          rw [hsplit x', h1, pickBetter_pos A x' hAx', hx'proto]
          exact hproto p hp
        · exact .inr (by rw [hsplit x', hsplit x, h1])
      · have hAx : ¬ riskAdjustedApy A < riskAdjustedApy x :=
          fun hc => hAx' (lt_of_lt_of_le hc hadjx)
        refine .inr ?_
        rw [hsplit x', hsplit x, pickBetter_neg A x' hAx', pickBetter_neg A x hAx]

/-- C2 amended witness: the amended monotonicity applied to the concrete
true-decision scenario of `c2_counterexample` with the morpho candidate's
APY raised from 10% to 12%. -/
theorem c2_amended_monotonicity_witness :
    ((1:ℚ)/10 ≤ 12/100) ∧ ((0:ℚ) ≤ 1) ∧
    (∀ p, normalizePositions
        (.single { protocol := .aave, vaultAddress := "0xS", shares := 0
                   assets := 1000000000, apy := 5/100, enteredAt := 0 }) =
        some p →
      ({ id := "y", protocol := .morpho, name := "Y", asset := "USDC"
         apy := 1/10, tvl := 0, address := "0xY", riskScore := 0
         liquidityDepth := 0 } : YieldOpportunity).protocol ≠ p.protocol) ∧
    (evaluateRebalanceWith estimateCosts MIN_REBALANCE_THRESHOLD
        (.single { protocol := .aave, vaultAddress := "0xS", shares := 0
                   assets := 1000000000, apy := 5/100, enteredAt := 0 })
        ([] ++ { id := "y", protocol := .morpho, name := "Y", asset := "USDC"
                 apy := 1/10, tvl := 0, address := "0xY", riskScore := 0
                 liquidityDepth := 0 } ::
          [{ id := "x", protocol := .aave, name := "X", asset := "USDC"
             apy := 1/100, tvl := 0, address := "0xX", riskScore := 0
             liquidityDepth := 0 }])
        0).shouldRebalance = true ∧
    (evaluateRebalanceWith estimateCosts MIN_REBALANCE_THRESHOLD
        (.single { protocol := .aave, vaultAddress := "0xS", shares := 0
                   assets := 1000000000, apy := 5/100, enteredAt := 0 })
        ([] ++ ({ ({ id := "y", protocol := .morpho, name := "Y", asset := "USDC"
                     apy := 1/10, tvl := 0, address := "0xY", riskScore := 0
                     liquidityDepth := 0 } : YieldOpportunity) with
                  apy := 12/100 }) ::
          [{ id := "x", protocol := .aave, name := "X", asset := "USDC"
             apy := 1/100, tvl := 0, address := "0xX", riskScore := 0
             liquidityDepth := 0 }])
        0).shouldRebalance = true := by
  have hold : (evaluateRebalanceWith estimateCosts MIN_REBALANCE_THRESHOLD
      (.single { protocol := .aave, vaultAddress := "0xS", shares := 0
                 assets := 1000000000, apy := 5/100, enteredAt := 0 })
      ([] ++ { id := "y", protocol := .morpho, name := "Y", asset := "USDC"
               apy := 1/10, tvl := 0, address := "0xY", riskScore := 0
               liquidityDepth := 0 } ::
        [{ id := "x", protocol := .aave, name := "X", asset := "USDC"
           apy := 1/100, tvl := 0, address := "0xX", riskScore := 0
           liquidityDepth := 0 }])
      0).shouldRebalance = true := by
    simp only [List.nil_append, evaluateRebalanceWith, normalizePositions,
      bestOpportunity, List.foldl_cons, List.foldl_nil, pickBetter,
      estimateCosts, riskAdjustedApy, MIN_REBALANCE_THRESHOLD,
      ESTIMATED_GAS_COST_USD]
    norm_num
    try simp
  have hproto : ∀ p, normalizePositions
      (.single { protocol := .aave, vaultAddress := "0xS", shares := 0
                 assets := 1000000000, apy := 5/100, enteredAt := 0 }) =
      some p →
    ({ id := "y", protocol := .morpho, name := "Y", asset := "USDC"
       apy := 1/10, tvl := 0, address := "0xY", riskScore := 0
       liquidityDepth := 0 } : YieldOpportunity).protocol ≠ p.protocol := by
    intro p hp
    injection hp with h
    rw [← h]
    simp
  exact ⟨by norm_num, by norm_num, hproto, hold,
    c2_amended_monotonicity estimateCosts MIN_REBALANCE_THRESHOLD _ 0 [] _ _ _
      (by norm_num) (by norm_num) hproto hold⟩


/-! ## Rate limiter lemmas and claims -/

theorem charOfNat_toNat {n : Nat} (h : n.isValidChar) :
    (Char.ofNat n).toNat = n := by
  unfold Char.ofNat
  rw [dif_pos h]
  rfl

theorem jsLowerChar_idem (c : Char) :
    jsLowerChar (jsLowerChar c) = jsLowerChar c := by
  unfold jsLowerChar
  by_cases h : 65 ≤ c.toNat ∧ c.toNat ≤ 90
  · rw [if_pos h]
    have ht : (Char.ofNat (c.toNat + 32)).toNat = c.toNat + 32 :=
      charOfNat_toNat (Or.inl (by omega))
    rw [if_neg (by rw [ht]; omega)]
  · rw [if_neg h, if_neg h]

theorem jsToLower_idem (s : String) : jsToLower (jsToLower s) = jsToLower s := by
  unfold jsToLower
  refine congrArg String.mk ?_
  rw [List.map_map]
  exact List.map_congr_left fun a _ => jsLowerChar_idem a

/-- C10: all four rate-limiter operations key the store by the lowercased
identity, so an identity and its lowercased form observe and mutate the
same counters. -/
theorem c10_lowercased_identity (s : TransferStore) (now t : ℤ) (u : String)
    (amt a : ℚ) (cfg : RateLimitConfig) (success : Bool) :
    checkTransferRateLimit s now u amt cfg =
      checkTransferRateLimit s now (jsToLower u) amt cfg ∧
    recordTransferAttempt s t u a success =
      recordTransferAttempt s t (jsToLower u) a success ∧
    resetUserRateLimit s u = resetUserRateLimit s (jsToLower u) ∧
    getUserTransferHistory s now u cfg =
      getUserTransferHistory s now (jsToLower u) cfg := by
  have h := jsToLower_idem u
  refine ⟨?_, ?_, ?_, ?_⟩ <;>
    simp only [checkTransferRateLimit, recordTransferAttempt,
      resetUserRateLimit, getUserTransferHistory, h]

/-- C9 counterexample: with a daily cap of 1, a failed attempt at t=1 and
a successful attempt at t=100, the check at t=1000 denies for the daily
cap but returns `resetTime = 1 + window` — the oldest attempt overall —
not `100 + window`, the oldest *successful* attempt plus the window. -/
theorem c9_counterexample :
    (checkTransferRateLimit
        (storeSet emptyStore "u"
          [ { timestamp := 1, amount := 10, success := false }
          , { timestamp := 100, amount := 10, success := true } ])
        1000 "u" 10
        { maxTransfersPerDay := 1, maxAmountPerTransfer := 500
          windowMs := 86400000 }).1.reason? = some .dailyLimitReached ∧
    (checkTransferRateLimit
        (storeSet emptyStore "u"
          [ { timestamp := 1, amount := 10, success := false }
          , { timestamp := 100, amount := 10, success := true } ])
        1000 "u" 10
        { maxTransfersPerDay := 1, maxAmountPerTransfer := 500
          windowMs := 86400000 }).1.resetTime? = some (1 + 86400000) ∧
    ((1 : ℤ) + 86400000 ≠ 100 + 86400000) := by
  refine ⟨?_, ?_, by decide⟩ <;> decide

theorem foldl_oldest (l : List TransferAttempt) :
    ∀ init : TransferAttempt,
      (l.foldl (fun oldest a =>
          if a.timestamp < oldest.timestamp then a else oldest) init = init ∨
        l.foldl (fun oldest a =>
          if a.timestamp < oldest.timestamp then a else oldest) init ∈ l) ∧
      (l.foldl (fun oldest a =>
          if a.timestamp < oldest.timestamp then a else oldest) init).timestamp
        ≤ init.timestamp ∧
      ∀ b ∈ l,
        (l.foldl (fun oldest a =>
          if a.timestamp < oldest.timestamp then a else oldest) init).timestamp
          ≤ b.timestamp := by
  induction l with
  | nil => exact fun init => ⟨.inl rfl, le_refl _, by simp⟩
  | cons o t ih =>
    intro init
    rw [List.foldl_cons]
    obtain ⟨hmem, hinit, hall⟩ := ih (if o.timestamp < init.timestamp then o else init)
    have hts : (if o.timestamp < init.timestamp then o else init).timestamp ≤
        init.timestamp := by
      split <;> omega
    have hto : (if o.timestamp < init.timestamp then o else init).timestamp ≤
        o.timestamp := by
      split <;> omega
    refine ⟨?_, le_trans hinit hts, ?_⟩
    · rcases hmem with h | h
      · rw [h]
        split
        · exact .inr (by simp)
        · exact .inl rfl
      · exact .inr (List.mem_cons_of_mem o h)
    · intro b hb
      rcases List.mem_cons.mp hb with h | h
      · rw [h]
        exact le_trans hinit hto
      · exact hall b h

/-- C9 amended: whenever `checkTransferRateLimit` denies for the daily cap
(with a positive configured cap), the returned `resetTime` is the
timestamp of the oldest attempt — successful or failed — within the
window, plus the window length.  The spec's "oldest counted (successful)
attempt" is wrong when the oldest in-window attempt is a failed one
(`c9_counterexample`). -/
theorem c9_amended_reset_time (s : TransferStore) (now : ℤ) (u : String)
    (amt : ℚ) (cfg : RateLimitConfig) (hN : 1 ≤ cfg.maxTransfersPerDay)
    (hdenied : (checkTransferRateLimit s now u amt cfg).1.reason? =
      some .dailyLimitReached) :
    ∃ a ∈ (s (jsToLower u)).filter
        (fun x => now - cfg.windowMs < x.timestamp),
      (checkTransferRateLimit s now u amt cfg).1.resetTime? =
        some (a.timestamp + cfg.windowMs) ∧
      ∀ b ∈ (s (jsToLower u)).filter
          (fun x => now - cfg.windowMs < x.timestamp),
        a.timestamp ≤ b.timestamp := by
  simp only [checkTransferRateLimit] at hdenied ⊢
  by_cases hamt : cfg.maxAmountPerTransfer < amt
  · rw [if_pos hamt] at hdenied
    simp at hdenied
  · rw [if_neg hamt] at hdenied ⊢
    by_cases hcap : cfg.maxTransfersPerDay ≤
        (((s (jsToLower u)).filter
          (fun x => now - cfg.windowMs < x.timestamp)).filter
            (fun x => x.success)).length
    · rw [if_pos hcap] at hdenied ⊢
      rcases hrec : (s (jsToLower u)).filter
          (fun x => now - cfg.windowMs < x.timestamp) with _ | ⟨r, rs⟩
      · rw [hrec] at hcap
        simp at hcap
        omega
      · rw [hrec] at hcap ⊢
        obtain ⟨hmem, hinit, hall⟩ := foldl_oldest (r :: rs) ((r :: rs).headD undefinedAttempt)
        refine ⟨(r :: rs).foldl (fun oldest a =>
          if a.timestamp < oldest.timestamp then a else oldest)
            ((r :: rs).headD undefinedAttempt), ?_, rfl, hall⟩
        rcases hmem with h | h
        · rw [h]
          simp
        · exact h
    · rw [if_neg hcap] at hdenied
      simp at hdenied

/-- C9 amended witness: the amended theorem at the `c9_counterexample`
input, where the oldest in-window attempt is the failed one at t=1. -/
theorem c9_amended_reset_time_witness :
    1 ≤ (1 : ℕ) ∧
    ((checkTransferRateLimit
        (storeSet emptyStore "u"
          [ { timestamp := 1, amount := 10, success := false }
          , { timestamp := 100, amount := 10, success := true } ])
        1000 "u" 10
        { maxTransfersPerDay := 1, maxAmountPerTransfer := 500
          windowMs := 86400000 }).1.reason? = some .dailyLimitReached) ∧
    (∃ a ∈ ((storeSet emptyStore "u"
          [ { timestamp := 1, amount := 10, success := false }
          , { timestamp := 100, amount := 10, success := true } ]) (jsToLower "u")).filter
        (fun x => (1000 : ℤ) -
          ({ maxTransfersPerDay := 1, maxAmountPerTransfer := 500
             windowMs := 86400000 } : RateLimitConfig).windowMs < x.timestamp),
      (checkTransferRateLimit
        (storeSet emptyStore "u"
          [ { timestamp := 1, amount := 10, success := false }
          , { timestamp := 100, amount := 10, success := true } ])
        1000 "u" 10
        { maxTransfersPerDay := 1, maxAmountPerTransfer := 500
          windowMs := 86400000 }).1.resetTime? =
        some (a.timestamp +
          ({ maxTransfersPerDay := 1, maxAmountPerTransfer := 500
             windowMs := 86400000 } : RateLimitConfig).windowMs) ∧
      ∀ b ∈ ((storeSet emptyStore "u"
          [ { timestamp := 1, amount := 10, success := false }
          , { timestamp := 100, amount := 10, success := true } ]) (jsToLower "u")).filter
          (fun x => (1000 : ℤ) -
            ({ maxTransfersPerDay := 1, maxAmountPerTransfer := 500
               windowMs := 86400000 } : RateLimitConfig).windowMs < x.timestamp),
        a.timestamp ≤ b.timestamp) :=
  ⟨le_refl 1, by decide,
   c9_amended_reset_time
     (storeSet emptyStore "u"
       [ { timestamp := 1, amount := 10, success := false }
       , { timestamp := 100, amount := 10, success := true } ])
     1000 "u" 10
     { maxTransfersPerDay := 1, maxAmountPerTransfer := 500
       windowMs := 86400000 }
     (le_refl 1) (by decide)⟩


/-- Recording a run of successful attempts from an empty per-identity
history produces exactly that run as the stored history, provided every
attempt survives every later 30-day cleanup. -/
theorem recordRun_history (u : String) (recs : List (ℤ × ℚ)) :
    ∀ (s : TransferStore) (L : List TransferAttempt),
      s (jsToLower u) = L →
      (∀ r ∈ recs, ∀ a ∈ L, r.1 - THIRTY_DAYS_MS < a.timestamp) →
      (∀ r ∈ recs, ∀ r2 ∈ recs, r.1 - THIRTY_DAYS_MS < r2.1) →
      (recs.foldl (fun st r => recordTransferAttempt st r.1 u r.2 true) s)
          (jsToLower u) =
        L ++ recs.map (fun r =>
          { timestamp := r.1, amount := r.2, success := true }) := by
  induction recs with
  | nil => intro s L hL _ _; simpa using hL
  | cons r rest ih =>
    intro s L hL hsurv hcross
    rw [List.foldl_cons]
    have hstep : (recordTransferAttempt s r.1 u r.2 true) (jsToLower u) =
        L ++ [{ timestamp := r.1, amount := r.2, success := true }] := by
      simp only [recordTransferAttempt, storeSet_same, hL]
      rw [List.filter_append]
      have h1 : L.filter (fun a => decide (r.1 - THIRTY_DAYS_MS < a.timestamp)) = L :=
        List.filter_eq_self.mpr fun a ha =>
          decide_eq_true (hsurv r (by simp) a ha)
      have h2 : ([{ timestamp := r.1, amount := r.2, success := true }] :
            List TransferAttempt).filter
          (fun a => decide (r.1 - THIRTY_DAYS_MS < a.timestamp)) =
          [{ timestamp := r.1, amount := r.2, success := true }] := by
        have : r.1 - THIRTY_DAYS_MS < r.1 := by
          have : (0:ℤ) < THIRTY_DAYS_MS := by decide
          omega
        simp [this]
      rw [h1, h2]
    rw [ih (recordTransferAttempt s r.1 u r.2 true)
      (L ++ [{ timestamp := r.1, amount := r.2, success := true }]) hstep
      ?_ ?_]
    · simp
    · intro r2 hr2 a ha
      rcases List.mem_append.mp ha with h | h
      · exact hsurv r2 (by simp [hr2]) a h
      · rcases List.mem_singleton.mp h with rfl
        exact hcross r2 (by simp [hr2]) r (by simp)
    · intro r2 hr2 r3 hr3
      exact hcross r2 (by simp [hr2]) r3 (by simp [hr3])

/-- Recording a single failed attempt never lowers the remaining-attempts
count that `checkTransferRateLimit` reports. -/
theorem attemptsRemaining_fail_step (s : TransferStore) (now t : ℤ)
    (u : String) (amt a : ℚ) (cfg : RateLimitConfig) (r : ℤ)
    (hr : (checkTransferRateLimit s now u amt cfg).1.attemptsRemaining? =
      some r) :
    ∃ r2, (checkTransferRateLimit (recordTransferAttempt s t u a false)
        now u amt cfg).1.attemptsRemaining? = some r2 ∧ r ≤ r2 := by
  simp only [checkTransferRateLimit, recordTransferAttempt, storeSet_same]
    at hr ⊢
  by_cases hamt : cfg.maxAmountPerTransfer < amt
  · rw [if_pos hamt] at hr
    simp at hr
  · rw [if_neg hamt] at hr ⊢
    have hle :
        ((((s (jsToLower u) ++
              [({ timestamp := t, amount := a, success := false } : TransferAttempt)]).filter
            (fun x : TransferAttempt => decide (t - THIRTY_DAYS_MS < x.timestamp))).filter
          (fun x : TransferAttempt => decide (now - cfg.windowMs < x.timestamp))).filter
            (fun x : TransferAttempt => x.success)).length ≤
        (((s (jsToLower u)).filter
          (fun x : TransferAttempt => decide (now - cfg.windowMs < x.timestamp))).filter
            (fun x : TransferAttempt => x.success)).length := by
      rw [← List.countP_eq_length_filter, ← List.countP_eq_length_filter,
        List.countP_filter, List.countP_filter, List.countP_filter,
        List.countP_append]
      have hsing : List.countP
          (fun x : TransferAttempt => (x.success && decide (now - cfg.windowMs < x.timestamp))
            && decide (t - THIRTY_DAYS_MS < x.timestamp))
          [({ timestamp := t, amount := a, success := false } : TransferAttempt)] = 0 := by
        simp
      rw [hsing, Nat.add_zero]
      exact List.countP_mono_left fun x _ hx => by
        simp only [Bool.and_eq_true] at hx ⊢
        exact hx.1
    by_cases hcapB : cfg.maxTransfersPerDay ≤
        (((s (jsToLower u)).filter
          (fun x : TransferAttempt => decide (now - cfg.windowMs < x.timestamp))).filter
            (fun x : TransferAttempt => x.success)).length
    · rw [if_pos hcapB] at hr
      simp only [Option.some.injEq] at hr
      by_cases hcapA : cfg.maxTransfersPerDay ≤
          ((((s (jsToLower u) ++
                [({ timestamp := t, amount := a, success := false } : TransferAttempt)]).filter
              (fun x : TransferAttempt => decide (t - THIRTY_DAYS_MS < x.timestamp))).filter
            (fun x : TransferAttempt => decide (now - cfg.windowMs < x.timestamp))).filter
              (fun x : TransferAttempt => x.success)).length
      · rw [if_pos hcapA]
        exact ⟨0, rfl, by omega⟩
      · rw [if_neg hcapA]
        refine ⟨_, rfl, ?_⟩
        push_neg at hcapA
        have : ((((s (jsToLower u) ++
              [({ timestamp := t, amount := a, success := false } : TransferAttempt)]).filter
            (fun x : TransferAttempt => decide (t - THIRTY_DAYS_MS < x.timestamp))).filter
          (fun x : TransferAttempt => decide (now - cfg.windowMs < x.timestamp))).filter
            (fun x : TransferAttempt => x.success)).length < cfg.maxTransfersPerDay := hcapA
        omega
    · rw [if_neg hcapB] at hr
      simp only [Option.some.injEq] at hr
      have hcapA : ¬ cfg.maxTransfersPerDay ≤
          ((((s (jsToLower u) ++
                [({ timestamp := t, amount := a, success := false } : TransferAttempt)]).filter
              (fun x : TransferAttempt => decide (t - THIRTY_DAYS_MS < x.timestamp))).filter
            (fun x : TransferAttempt => decide (now - cfg.windowMs < x.timestamp))).filter
              (fun x : TransferAttempt => x.success)).length :=
        fun hc => hcapB (le_trans hc hle)
      rw [if_neg hcapA]
      refine ⟨_, rfl, ?_⟩
      omega


/-- C8: with a positive daily cap N and a 24-hour-style window no longer
than the 30-day retention, starting from an empty per-identity history:
recording N successful in-window attempts makes the next check (for any
amount within the per-operation cap) return `allowed = false`; recording
N-1 returns `allowed = true` with `attemptsRemaining = 1`; and recording
any number of failed attempts never reduces `attemptsRemaining`. -/
theorem c8_cap_enforcement (cfg : RateLimitConfig) (s : TransferStore)
    (u : String) (amt : ℚ) (now : ℤ) (recs1 recs2 : List (ℤ × ℚ))
    (hN : 1 ≤ cfg.maxTransfersPerDay)
    (hW : cfg.windowMs ≤ THIRTY_DAYS_MS)
    (hempty : s (jsToLower u) = [])
    (htimes1 : ∀ r ∈ recs1, now - cfg.windowMs < r.1 ∧ r.1 ≤ now)
    (htimes2 : ∀ r ∈ recs2, now - cfg.windowMs < r.1 ∧ r.1 ≤ now)
    (hamt : ¬ cfg.maxAmountPerTransfer < amt)
    (hlen1 : recs1.length = cfg.maxTransfersPerDay)
    (hlen2 : recs2.length + 1 = cfg.maxTransfersPerDay) :
    (checkTransferRateLimit
        (recs1.foldl (fun st r => recordTransferAttempt st r.1 u r.2 true) s)
        now u amt cfg).1.allowed = false ∧
    ((checkTransferRateLimit
        (recs2.foldl (fun st r => recordTransferAttempt st r.1 u r.2 true) s)
        now u amt cfg).1.allowed = true ∧
      (checkTransferRateLimit
        (recs2.foldl (fun st r => recordTransferAttempt st r.1 u r.2 true) s)
        now u amt cfg).1.attemptsRemaining? = some 1) ∧
    (∀ (s2 : TransferStore) (fails : List (ℤ × ℚ)) (r : ℤ),
      (checkTransferRateLimit s2 now u amt cfg).1.attemptsRemaining? =
        some r →
      ∃ r2, (checkTransferRateLimit
          (fails.foldl
            (fun st f => recordTransferAttempt st f.1 u f.2 false) s2)
          now u amt cfg).1.attemptsRemaining? = some r2 ∧ r ≤ r2) := by
  have h30 : (0:ℤ) < THIRTY_DAYS_MS := by decide
  have hkey : ∀ recs : List (ℤ × ℚ),
      (∀ r ∈ recs, now - cfg.windowMs < r.1 ∧ r.1 ≤ now) →
      (recs.foldl (fun st r => recordTransferAttempt st r.1 u r.2 true) s)
          (jsToLower u) =
        recs.map (fun r =>
          ({ timestamp := r.1, amount := r.2, success := true } :
            TransferAttempt)) := by
    intro recs ht
    have := recordRun_history u recs s [] hempty (by simp)
      (fun r hr r2 hr2 => by
        have h1 := (ht r hr).2
        have h2 := (ht r2 hr2).1
        omega)
    simpa using this
  have hfilt : ∀ recs : List (ℤ × ℚ),
      (∀ r ∈ recs, now - cfg.windowMs < r.1 ∧ r.1 ≤ now) →
      (recs.map (fun r =>
          ({ timestamp := r.1, amount := r.2, success := true } :
            TransferAttempt))).filter
        (fun x => decide (now - cfg.windowMs < x.timestamp)) =
      recs.map (fun r =>
        ({ timestamp := r.1, amount := r.2, success := true } :
          TransferAttempt)) := by
    intro recs ht
    refine List.filter_eq_self.mpr fun a ha => ?_
    obtain ⟨r, hr, rfl⟩ := List.mem_map.mp ha
    exact decide_eq_true (ht r hr).1
  have hsucc : ∀ recs : List (ℤ × ℚ),
      (recs.map (fun r =>
          ({ timestamp := r.1, amount := r.2, success := true } :
            TransferAttempt))).filter (fun x => x.success) =
      recs.map (fun r =>
        ({ timestamp := r.1, amount := r.2, success := true } :
          TransferAttempt)) := by
    intro recs
    refine List.filter_eq_self.mpr fun a ha => ?_
    obtain ⟨r, hr, rfl⟩ := List.mem_map.mp ha
    rfl
  refine ⟨?_, ⟨?_, ?_⟩, ?_⟩
  · simp only [checkTransferRateLimit, hkey recs1 htimes1,
      hfilt recs1 htimes1, hsucc recs1, List.length_map]
    rw [if_neg hamt, if_pos (by omega)]
  · simp only [checkTransferRateLimit, hkey recs2 htimes2,
      hfilt recs2 htimes2, hsucc recs2, List.length_map]
    rw [if_neg hamt, if_neg (by omega)]
  · simp only [checkTransferRateLimit, hkey recs2 htimes2,
      hfilt recs2 htimes2, hsucc recs2, List.length_map]
    rw [if_neg hamt, if_neg (by omega)]
    exact congrArg some (by omega)
  · intro s2 fails
    induction fails generalizing s2 with
    | nil => exact fun r hr => ⟨r, hr, le_refl r⟩
    | cons f fs ih =>
      intro r hr
      obtain ⟨r1, hr1, hle1⟩ :=
        attemptsRemaining_fail_step s2 now f.1 u amt f.2 cfg r hr
      obtain ⟨r2, hr2, hle2⟩ :=
        ih (recordTransferAttempt s2 f.1 u f.2 false) r1 hr1
      rw [List.foldl_cons]
      exact ⟨r2, hr2, le_trans hle1 hle2⟩


/-- C8 witness: the cap-enforcement theorem at a concrete cap of 2 with
two successful $10 attempts (part 1), one successful attempt (part 2),
and the failure-exclusion part applied out of the same instantiation. -/
theorem c8_cap_enforcement_witness :
    (1 ≤ (2:ℕ)) ∧ ((86400000:ℤ) ≤ THIRTY_DAYS_MS) ∧
    (emptyStore (jsToLower "u") = []) ∧
    (∀ r ∈ [((100:ℤ), (10:ℚ)), (200, 10)],
      (1000000:ℤ) - 86400000 < r.1 ∧ r.1 ≤ 1000000) ∧
    (∀ r ∈ [((100:ℤ), (10:ℚ))],
      (1000000:ℤ) - 86400000 < r.1 ∧ r.1 ≤ 1000000) ∧
    (¬ (500:ℚ) < 10) ∧
    ([((100:ℤ), (10:ℚ)), (200, 10)].length = 2) ∧
    ([((100:ℤ), (10:ℚ))].length + 1 = 2) ∧
    ((checkTransferRateLimit
        ([((100:ℤ), (10:ℚ)), (200, 10)].foldl
          (fun st r => recordTransferAttempt st r.1 "u" r.2 true) emptyStore)
        1000000 "u" 10
        { maxTransfersPerDay := 2, maxAmountPerTransfer := 500
          windowMs := 86400000 }).1.allowed = false ∧
      ((checkTransferRateLimit
          ([((100:ℤ), (10:ℚ))].foldl
            (fun st r => recordTransferAttempt st r.1 "u" r.2 true) emptyStore)
          1000000 "u" 10
          { maxTransfersPerDay := 2, maxAmountPerTransfer := 500
            windowMs := 86400000 }).1.allowed = true ∧
        (checkTransferRateLimit
          ([((100:ℤ), (10:ℚ))].foldl
            (fun st r => recordTransferAttempt st r.1 "u" r.2 true) emptyStore)
          1000000 "u" 10
          { maxTransfersPerDay := 2, maxAmountPerTransfer := 500
            windowMs := 86400000 }).1.attemptsRemaining? = some 1) ∧
      (∀ (s2 : TransferStore) (fails : List (ℤ × ℚ)) (r : ℤ),
        (checkTransferRateLimit s2 1000000 "u" 10
          { maxTransfersPerDay := 2, maxAmountPerTransfer := 500
            windowMs := 86400000 }).1.attemptsRemaining? = some r →
        ∃ r2, (checkTransferRateLimit
            (fails.foldl
              (fun st f => recordTransferAttempt st f.1 "u" f.2 false) s2)
            1000000 "u" 10
            { maxTransfersPerDay := 2, maxAmountPerTransfer := 500
              windowMs := 86400000 }).1.attemptsRemaining? = some r2 ∧
          r ≤ r2)) :=
  ⟨by decide, by decide, rfl, by decide, by decide, by decide, rfl, rfl,
   c8_cap_enforcement
     { maxTransfersPerDay := 2, maxAmountPerTransfer := 500
       windowMs := 86400000 }
     emptyStore "u" 10 1000000 [((100:ℤ), (10:ℚ)), (200, 10)]
     [((100:ℤ), (10:ℚ))]
     (by decide) (by decide) rfl (by decide) (by decide) (by decide) rfl rfl⟩

end FintechApp
